import Mathlib

/-
Verification development for the pyourls3 repository (a Python client
library for the YOURLS URL-shortening HTTP API).

The file shallowly embeds `pyourls3/client.py`: each client method is a
pure Lean function from the client configuration, the method arguments
and the observed HTTP response to an outcome (normal return, a typed
pyourls3 exception, or an untyped Python runtime error such as KeyError
or IndexError).  Network transport is abstracted: a method is modelled
as a function of the `Response` the server sends back, and the call site
used for the request (module-level `requests.post` versus the session
object stored on the client) is recorded separately.

The exception classes live in `pyourls3/exceptions.py`, which only
defines carriers for the arguments passed at each raise site; their
payloads are modelled from the spec (ParamError carries the parameter
name, HTTPError the status code and endpoint, APIError the message and
code, URLAlreadyExistsError the offending URL).
-/

namespace Pyourls3

/-- Dynamic values: decoded JSON payload fields and the Python values
stored in exception payloads and request dictionaries.  `str`, `num` and
`obj` cover everything the client code touches. -/
inductive Json where
  | str : String → Json
  | num : Int → Json
  | obj : List (String × Json) → Json

/-- Python dictionary lookup `j[k]` on a decoded JSON object, returning
`none` where Python would raise KeyError. -/
def jget (j : List (String × Json)) (k : String) : Option Json :=
  (j.find? (fun p => p.1 == k)).map (fun p => p.2)

/-- Python `x == "lit"` for a dynamic value `x` and a string literal:
true exactly when `x` is that string (comparison of a non-string value
with a string is `False` in Python, not an error). -/
def Json.eqStr : Json → String → Bool
  | Json.str s, t => s == t
  | _, _ => false

/-- Typed exceptions of `pyourls3/exceptions.py`.  The module itself is
not in the sources; the payload of each constructor is modelled from the
spec, matching the arguments passed at the raise sites in `client.py`. -/
inductive Pyourls3Error where
  | paramError : String → Pyourls3Error
  | httpError : Nat → String → Pyourls3Error
  | apiError : Json → Json → Pyourls3Error
  | urlAlreadyExistsError : String → Pyourls3Error

/-- Untyped Python runtime errors that `client.py` can let escape:
KeyError from a missing dictionary key, IndexError from `list[1]` on a
short list. -/
inductive PyRuntimeError where
  | keyError : String → PyRuntimeError
  | indexError : PyRuntimeError
  | attributeError : PyRuntimeError

/-- Result of a client method call: normal return, a raised pyourls3
exception, or an escaped untyped Python runtime error. -/
inductive Outcome (α : Type) where
  | ok : α → Outcome α
  | err : Pyourls3Error → Outcome α
  | pyerr : PyRuntimeError → Outcome α

/-- An observed HTTP response: the numeric status code, and the decoded
JSON object when the body parses as JSON (`none` models a body whose
parse raises `json.decoder.JSONDecodeError`). -/
structure Response where
  status_code : Nat
  body : Option (List (String × Json))

/-- Python `s.split(sep)` character-level worker, specialised to the one
separator the client uses, `": "`: greedy left-to-right scan splitting
at each non-overlapping occurrence. -/
def splitCS : List Char → List (List Char)
  | [] => [[]]
  | [c] => [[c]]
  | c :: c2 :: rest =>
    if c = ':' ∧ c2 = ' ' then [] :: splitCS rest
    else
      match splitCS (c2 :: rest) with
      | [] => [[c]]
      | p :: ps => (c :: p) :: ps

/-- Python `s.split(": ")` as used on line 150 and line 214 of
`client.py`. -/
def pySplitCS (s : String) : List String :=
  (splitCS s.data).map String.mk

/-- Whether the separator `": "` occurs in the characters. -/
def hasCS : List Char → Bool
  | [] => false
  | [_] => false
  | c :: c2 :: rest =>
    if c = ':' ∧ c2 = ' ' then true else hasCS (c2 :: rest)

/-- Python substring containment of the separator, `": " in s`. -/
def pyContainsCS (s : String) : Bool :=
  hasCS s.data

/-- Last character of a Python string, `s[-1]`; `none` for the empty
string (where Python would raise IndexError, unreachable in the
constructor because the emptiness check comes first). -/
def lastChar (s : String) : Option Char :=
  s.data.getLast?

/-- Characters before the first occurrence of `://`, or `none` when the
marker is absent. -/
def schemeChars : List Char → Option (List Char)
  | [] => none
  | ':' :: '/' :: '/' :: _ => some []
  | c :: rest => (schemeChars rest).map (fun p => c :: p)

/-- Scheme component extracted by `urllib3.util.parse_url(addr)` (line
24 of `client.py`).  Modelled from the spec: the address must parse as a
URL with an explicit scheme, i.e. a non-empty scheme before `://`. -/
def parsedScheme (addr : String) : Option String :=
  match schemeChars addr.data with
  | none => none
  | some [] => none
  | some cs => some (String.mk cs)

/-- Trailing-slash normalisation of the base address (lines 48-49 of
`client.py`): append `/` unless the last character already is one. -/
def normalizeAddr (addr : String) : String :=
  if lastChar addr = some '/' then addr else addr ++ "/"

/-- State a successfully constructed `Yourls` instance carries across
calls (lines 29-54 of `client.py`). -/
structure Config where
  is_using_signature_auth : Bool
  global_args : List (String × Json)
  api_endpoint : String

/-- Credential selection of `Yourls.__init__`, lines 29-44: the
username/password branch when both are supplied (each must be a string),
otherwise the signature branch when a key is supplied (must be a
string), otherwise a ParamError.  Returns the signature-auth flag and
the initial `global_args` dictionary. -/
def authArgs (user passwd key : Option Json) :
    Except Pyourls3Error (Bool × List (String × Json)) :=
  match user, passwd with
  | some u, some p =>
    match u with
    | Json.str _ =>
      match p with
      | Json.str _ => Except.ok (false, [("username", u), ("password", p)])
      | _ => Except.error (Pyourls3Error.paramError "passwd")
    | _ => Except.error (Pyourls3Error.paramError "user")
  | _, _ =>
    match key with
    | none => Except.error (Pyourls3Error.paramError "username and password or signature")
    | some k =>
      match k with
      | Json.str _ => Except.ok (true, [("signature", k)])
      | _ => Except.error (Pyourls3Error.paramError "key")

namespace Yourls

/-- `Yourls.__init__` (lines 19-57 of `client.py`): validate the
address and the credentials, build `global_args` with `format=json`,
derive the endpoint, then probe the endpoint once; a 403 probe response
raises `Pyourls3APIError(..., 403)`. -/
def init (addr : String) (user passwd key : Option Json) (probe : Response) :
    Except Pyourls3Error Config :=
  if addr = "" then Except.error (Pyourls3Error.paramError "API URL")
  else if (parsedScheme addr).isNone then Except.error (Pyourls3Error.paramError "addr")
  else
    match authArgs user passwd key with
    | Except.error e => Except.error e
    | Except.ok (isSig, gargs) =>
      if probe.status_code = 403 then
        Except.error (Pyourls3Error.apiError
          (Json.str "credentials are invalid or incorrect: forbidden") (Json.num 403))
      else
        Except.ok
          { is_using_signature_auth := isSig
            global_args := gargs ++ [("format", Json.str "json")]
            api_endpoint := normalizeAddr addr ++ "yourls-api.php" }

/-- Shared response handling of `shorten` (lines 84-95) and `update`
(lines 117-128): on an unparseable body raise HTTPError; on
`status != "success"` raise URLAlreadyExistsError when the code is the
duplicate-URL sentinel `"error:url"`, otherwise APIError with the
message and code; on success return the full decoded object. -/
def statusEnvelope (cfg : Config) (url : String) (r : Response) :
    Outcome (List (String × Json)) :=
  match r.body with
  | none => Outcome.err (Pyourls3Error.httpError r.status_code cfg.api_endpoint)
  | some j =>
    match jget j "status" with
    | none => Outcome.pyerr (PyRuntimeError.keyError "status")
    | some st =>
      if st.eqStr "success" then Outcome.ok j
      else
        match jget j "code" with
        | none => Outcome.pyerr (PyRuntimeError.keyError "code")
        | some c =>
          if c.eqStr "error:url" then
            Outcome.err (Pyourls3Error.urlAlreadyExistsError url)
          else
            match jget j "message" with
            | none => Outcome.pyerr (PyRuntimeError.keyError "message")
            | some m => Outcome.err (Pyourls3Error.apiError m c)

/-- `Yourls.shorten` (lines 59-95): empty url raises ParamError, then
the status-envelope handling of the response. -/
def shorten (cfg : Config) (url : String) (r : Response) :
    Outcome (List (String × Json)) :=
  if url = "" then Outcome.err (Pyourls3Error.paramError "url")
  else statusEnvelope cfg url r

/-- `Yourls.update` (lines 97-128): empty url raises ParamError, then
the same status-envelope handling as `shorten`. -/
def update (cfg : Config) (url : String) (r : Response) :
    Outcome (List (String × Json)) :=
  if url = "" then Outcome.err (Pyourls3Error.paramError "url")
  else statusEnvelope cfg url r

/-- Shared failure handling of `expand` (lines 149-150) and `url_stats`
(lines 213-214): on `message != "success"` raise
`Pyourls3APIError(j["message"].split(": ")[1], j["code"])`, where the
indexing raises IndexError when the split yields fewer than two parts;
on success return the field named `fieldName`. -/
def messageEnvelope (cfg : Config) (fieldName : String) (r : Response) :
    Outcome Json :=
  match r.body with
  | none => Outcome.err (Pyourls3Error.httpError r.status_code cfg.api_endpoint)
  | some j =>
    match jget j "message" with
    | none => Outcome.pyerr (PyRuntimeError.keyError "message")
    | some m =>
      if m.eqStr "success" then
        match jget j fieldName with
        | none => Outcome.pyerr (PyRuntimeError.keyError fieldName)
        | some v => Outcome.ok v
      else
        match m with
        | Json.str s =>
          match (pySplitCS s)[1]? with
          | none => Outcome.pyerr PyRuntimeError.indexError
          | some d =>
            match jget j "code" with
            | none => Outcome.pyerr (PyRuntimeError.keyError "code")
            | some c => Outcome.err (Pyourls3Error.apiError (Json.str d) c)
        | _ => Outcome.pyerr PyRuntimeError.attributeError

/-- `Yourls.expand` (lines 130-152): empty url raises ParamError; the
message-envelope handling; on success return `j["longurl"]`. -/
def expand (cfg : Config) (url : String) (r : Response) : Outcome Json :=
  if url = "" then Outcome.err (Pyourls3Error.paramError "url")
  else messageEnvelope cfg "longurl" r

/-- `Yourls.stats` (lines 154-171): no argument validation and no
success check at all; an unparseable body raises HTTPError, otherwise
return `j["stats"]` (KeyError when absent). -/
def stats (cfg : Config) (r : Response) : Outcome Json :=
  match r.body with
  | none => Outcome.err (Pyourls3Error.httpError r.status_code cfg.api_endpoint)
  | some j =>
    match jget j "stats" with
    | none => Outcome.pyerr (PyRuntimeError.keyError "stats")
    | some v => Outcome.ok v

/-- `Yourls.delete` (lines 173-190): empty keyword raises ParamError;
the body is never parsed: return `True` exactly when the status code is
200, otherwise raise HTTPError. -/
def delete (cfg : Config) (keyword : String) (r : Response) : Outcome Bool :=
  if keyword = "" then Outcome.err (Pyourls3Error.paramError "url")
  else if r.status_code = 200 then Outcome.ok true
  else Outcome.err (Pyourls3Error.httpError r.status_code cfg.api_endpoint)

/-- `Yourls.url_stats` (lines 192-216): empty url raises ParamError;
the same message-envelope handling as `expand`; on success return
`j["link"]`. -/
def url_stats (cfg : Config) (url : String) (r : Response) : Outcome Json :=
  if url = "" then Outcome.err (Pyourls3Error.paramError "url")
  else messageEnvelope cfg "link" r

end Yourls

/-- Whether an outcome is a raised `Pyourls3URLAlreadyExistsError`. -/
def Outcome.isDupErr {α : Type} : Outcome α → Bool
  | Outcome.err (Pyourls3Error.urlAlreadyExistsError _) => true
  | _ => false

/-- The six public API methods of the client. -/
inductive ApiMethod where
  | shorten | update | expand | stats | delete | url_stats
deriving DecidableEq

/-- The two call constructs in `client.py` that issue an HTTP POST. -/
inductive Transport where
  | sessionPost
  | moduleLevelPost
deriving DecidableEq

/-- Call construct issuing the request in each method body: the
module-level `requests.post(...)` on lines 83, 115, 143, 165, 186 and
207 of `client.py`, not the session stored on the instance. -/
def methodTransport : ApiMethod → Transport
  | ApiMethod.shorten => Transport.moduleLevelPost
  | ApiMethod.update => Transport.moduleLevelPost
  | ApiMethod.expand => Transport.moduleLevelPost
  | ApiMethod.stats => Transport.moduleLevelPost
  | ApiMethod.delete => Transport.moduleLevelPost
  | ApiMethod.url_stats => Transport.moduleLevelPost

/-- Call construct used for the credential probe on line 56 of
`client.py`: `self.session.post(...)`, the session created on line 53. -/
def probeTransport : Transport := Transport.sessionPost

/-- Concrete client configuration used by witnesses and
counterexamples. -/
def cfgEx : Config :=
  { is_using_signature_auth := true
    global_args := [("signature", Json.str "abc"), ("format", Json.str "json")]
    api_endpoint := "http://example.com/yourls-api.php" }

/-- A 200 response whose body does not parse as JSON. -/
def rRaw200 : Response := { status_code := 200, body := none }

/-- A 404 response whose body does not parse as JSON. -/
def rRaw404 : Response := { status_code := 404, body := none }

/-- A parsed failure envelope with the duplicate-URL sentinel code. -/
def rDup : Response :=
  { status_code := 200
    body := some [("status", Json.str "fail"), ("code", Json.str "error:url"),
                  ("message", Json.str "already exists")] }

/-- A parsed failure envelope whose message holds a further `: `
inside the detail. -/
def rMsgNested : Response :=
  { status_code := 200
    body := some [("message", Json.str "error: not: found"), ("code", Json.str "E404")] }

/-- A parsed failure envelope with a single `: ` in the message. -/
def rMsgPlain : Response :=
  { status_code := 200
    body := some [("message", Json.str "error: not found"), ("code", Json.str "E404")] }

/-- A parsed failure envelope whose message holds no `: ` at all. -/
def rMsgNoSep : Response :=
  { status_code := 200
    body := some [("message", Json.str "failure"), ("code", Json.str "E500")] }

/-- A parsed response whose object holds none of the keys the client
reads. -/
def rEmptyObj : Response :=
  { status_code := 200, body := some [] }

/-- A parsed failure envelope with a status and code but no message. -/
def rNoMessage : Response :=
  { status_code := 200
    body := some [("status", Json.str "fail"), ("code", Json.str "error:keyword")] }

/-- A 403 probe response. -/
def probe403 : Response := { status_code := 403, body := none }

/- ------------------------------------------------------------------ -/
/- Helper lemmas                                                      -/
/- ------------------------------------------------------------------ -/

theorem Json.eqStr_true_iff (v : Json) (t : String) :
    v.eqStr t = true ↔ v = Json.str t := by
  cases v <;> simp [Json.eqStr]

theorem Json.eqStr_false_iff (v : Json) (t : String) :
    v.eqStr t = false ↔ v ≠ Json.str t := by
  rw [← Bool.not_eq_true, not_iff_not]
  exact Json.eqStr_true_iff v t

theorem messageEnvelope_not_dup (cfg : Config) (f : String) (r : Response) :
    (Yourls.messageEnvelope cfg f r).isDupErr = false := by
  unfold Yourls.messageEnvelope
  repeat' split
  all_goals rfl

theorem isDupErr_eq {α : Type} (o : Outcome α) (h : o.isDupErr = true) :
    ∃ v, o = Outcome.err (Pyourls3Error.urlAlreadyExistsError v) := by
  cases o with
  | ok a => simp [Outcome.isDupErr] at h
  | pyerr e => simp [Outcome.isDupErr] at h
  | err e =>
    cases e with
    | urlAlreadyExistsError v => exact ⟨v, rfl⟩
    | paramError p => simp [Outcome.isDupErr] at h
    | httpError s ep => simp [Outcome.isDupErr] at h
    | apiError m c => simp [Outcome.isDupErr] at h

theorem statusEnvelope_dup_iff (cfg : Config) (u : String) (r : Response) :
    Yourls.statusEnvelope cfg u r
        = Outcome.err (Pyourls3Error.urlAlreadyExistsError u)
  ↔ ∃ j, r.body = some j
      ∧ (∃ st, jget j "status" = some st ∧ st.eqStr "success" = false)
      ∧ jget j "code" = some (Json.str "error:url") := by
  constructor
  · intro h
    unfold Yourls.statusEnvelope at h
    repeat' split at h
    all_goals simp_all [Json.eqStr_true_iff, Json.eqStr_false_iff]
  · rintro ⟨j, hb, ⟨st, hs, hne⟩, hc⟩
    unfold Yourls.statusEnvelope
    simp [hb, hs, hne, hc, Json.eqStr_true_iff]

theorem statusEnvelope_dup_arg (cfg : Config) (u v : String) (r : Response)
    (h : Yourls.statusEnvelope cfg u r
          = Outcome.err (Pyourls3Error.urlAlreadyExistsError v)) :
    v = u := by
  unfold Yourls.statusEnvelope at h
  repeat' split at h
  all_goals simp_all

theorem expand_not_dup (cfg : Config) (u : String) (r : Response) :
    (Yourls.expand cfg u r).isDupErr = false := by
  unfold Yourls.expand
  split
  · rfl
  · exact messageEnvelope_not_dup cfg "longurl" r

theorem url_stats_not_dup (cfg : Config) (u : String) (r : Response) :
    (Yourls.url_stats cfg u r).isDupErr = false := by
  unfold Yourls.url_stats
  split
  · rfl
  · exact messageEnvelope_not_dup cfg "link" r

theorem stats_not_dup (cfg : Config) (r : Response) :
    (Yourls.stats cfg r).isDupErr = false := by
  unfold Yourls.stats
  repeat' split
  all_goals rfl

theorem delete_not_dup (cfg : Config) (k : String) (r : Response) :
    (Yourls.delete cfg k r).isDupErr = false := by
  unfold Yourls.delete
  repeat' split
  all_goals rfl

theorem shorten_dup_iff (cfg : Config) (u : String) (r : Response) :
    Yourls.shorten cfg u r = Outcome.err (Pyourls3Error.urlAlreadyExistsError u)
  ↔ u ≠ "" ∧ ∃ j, r.body = some j
      ∧ (∃ st, jget j "status" = some st ∧ st.eqStr "success" = false)
      ∧ jget j "code" = some (Json.str "error:url") := by
  unfold Yourls.shorten
  by_cases hu : u = ""
  · subst hu
    simp
  · simp [hu, statusEnvelope_dup_iff]

/-- C1 as stated is false: `update`, at a parsed failure envelope whose
code is the duplicate-URL sentinel `"error:url"`, also raises
URLAlreadyExistsError (lines 122-124 of `client.py`). -/
theorem C1_counterexample :
    Yourls.update cfgEx "http://example.com/old" rDup
      = Outcome.err (Pyourls3Error.urlAlreadyExistsError "http://example.com/old")
  ∧ (Yourls.update cfgEx "http://example.com/old" rDup).isDupErr = true :=
  ⟨rfl, rfl⟩

/-- C1 amended: URLAlreadyExistsError is raised only from `shorten` and
`update`; expand, stats, delete and url_stats never raise it; within
each of `shorten` and `update` it is raised exactly when the response
parses, the status field is present and not "success", and the code
field equals the duplicate-URL sentinel "error:url"; and whenever it is
raised it carries the URL passed as first argument. -/
theorem C1_dup_error_sites (cfg : Config) (u kw : String) (r : Response) :
    (Yourls.expand cfg u r).isDupErr = false
  ∧ (Yourls.stats cfg r).isDupErr = false
  ∧ (Yourls.delete cfg kw r).isDupErr = false
  ∧ (Yourls.url_stats cfg u r).isDupErr = false
  ∧ ((Yourls.shorten cfg u r).isDupErr = true →
      Yourls.shorten cfg u r = Outcome.err (Pyourls3Error.urlAlreadyExistsError u))
  ∧ ((Yourls.update cfg u r).isDupErr = true →
      Yourls.update cfg u r = Outcome.err (Pyourls3Error.urlAlreadyExistsError u))
  ∧ (Yourls.shorten cfg u r = Outcome.err (Pyourls3Error.urlAlreadyExistsError u)
      ↔ u ≠ "" ∧ ∃ j, r.body = some j
          ∧ (∃ st, jget j "status" = some st ∧ st.eqStr "success" = false)
          ∧ jget j "code" = some (Json.str "error:url"))
  ∧ (Yourls.update cfg u r = Outcome.err (Pyourls3Error.urlAlreadyExistsError u)
      ↔ u ≠ "" ∧ ∃ j, r.body = some j
          ∧ (∃ st, jget j "status" = some st ∧ st.eqStr "success" = false)
          ∧ jget j "code" = some (Json.str "error:url")) := by
  have hsu : Yourls.update cfg u r = Yourls.shorten cfg u r := rfl
  refine ⟨expand_not_dup cfg u r, stats_not_dup cfg r, delete_not_dup cfg kw r,
    url_stats_not_dup cfg u r, ?_, ?_, shorten_dup_iff cfg u r, ?_⟩
  · intro h
    obtain ⟨v, hv⟩ := isDupErr_eq _ h
    unfold Yourls.shorten at hv ⊢
    rw [hv]
    split at hv
    · simp at hv
    · rw [statusEnvelope_dup_arg cfg u v r hv]
  · intro h
    rw [hsu] at h ⊢
    obtain ⟨v, hv⟩ := isDupErr_eq _ h
    unfold Yourls.shorten at hv ⊢
    rw [hv]
    split at hv
    · simp at hv
    · rw [statusEnvelope_dup_arg cfg u v r hv]
  · rw [hsu]
    exact shorten_dup_iff cfg u r

/-- C5: the claim states every API method issues its POST through the
session opened at construction; in the code only the constructor probe
uses `self.session.post`, while every method body calls the
module-level `requests.post`, so the session is never reused.  The code
contradicts the evident intent (a session is created and configured but
never used again), hence a code bug. -/
theorem C5_session_not_reused :
    probeTransport = Transport.sessionPost
  ∧ ∀ m : ApiMethod, methodTransport m = Transport.moduleLevelPost
      ∧ methodTransport m ≠ Transport.sessionPost := by
  refine ⟨rfl, fun m => ?_⟩
  cases m <;> exact ⟨rfl, by decide⟩

/-- C6: for every non-empty keyword, `delete` returns `true` exactly
when the HTTP status code is 200, raises HTTPError with the status code
and the endpoint for every other status code, and its outcome depends
only on the status code, never on the body. -/
theorem C6_delete_status_only (cfg : Config) (k : String) (r r2 : Response)
    (hk : k ≠ "") :
    (Yourls.delete cfg k r = Outcome.ok true ↔ r.status_code = 200)
  ∧ (r.status_code ≠ 200 →
      Yourls.delete cfg k r
        = Outcome.err (Pyourls3Error.httpError r.status_code cfg.api_endpoint))
  ∧ (r.status_code = r2.status_code →
      Yourls.delete cfg k r = Yourls.delete cfg k r2) := by
  unfold Yourls.delete
  refine ⟨?_, ?_, ?_⟩
  · by_cases h2 : r.status_code = 200 <;> simp [hk, h2]
  · intro h2
    simp [hk, h2]
  · intro h2
    simp [hk, h2]

/-- Witness for C6 at keyword `abc`, a 200 response with an unparseable
body and a 404 response. -/
theorem C6_witness :
    (Yourls.delete cfgEx "abc" rRaw200 = Outcome.ok true ↔ rRaw200.status_code = 200)
  ∧ (rRaw200.status_code ≠ 200 →
      Yourls.delete cfgEx "abc" rRaw200
        = Outcome.err (Pyourls3Error.httpError rRaw200.status_code cfgEx.api_endpoint))
  ∧ (rRaw200.status_code = rRaw404.status_code →
      Yourls.delete cfgEx "abc" rRaw200 = Yourls.delete cfgEx "abc" rRaw404) :=
  C6_delete_status_only cfgEx "abc" rRaw200 rRaw404 (by decide)

/-- C2 as stated is false: `delete` never parses the body, so a 200
response whose body is not parseable as JSON makes `delete` return
`true` instead of raising HTTPError. -/
theorem C2_counterexample :
    Yourls.delete cfgEx "abc" rRaw200 = Outcome.ok true
  ∧ Outcome.ok true
      ≠ Outcome.err (Pyourls3Error.httpError rRaw200.status_code cfgEx.api_endpoint) :=
  ⟨rfl, by simp⟩

/-- C2 amended: each of the five body-parsing methods (shorten, update,
expand, stats, url_stats) raises HTTPError carrying the numeric status
code and the API endpoint whenever the body is not parseable as JSON;
`delete` never parses the body and decides on the status code alone. -/
theorem C2_unparseable_body (cfg : Config) (u k : String) (r : Response)
    (hu : u ≠ "") (hk : k ≠ "") (hb : r.body = none) :
    Yourls.shorten cfg u r
        = Outcome.err (Pyourls3Error.httpError r.status_code cfg.api_endpoint)
  ∧ Yourls.update cfg u r
        = Outcome.err (Pyourls3Error.httpError r.status_code cfg.api_endpoint)
  ∧ Yourls.expand cfg u r
        = Outcome.err (Pyourls3Error.httpError r.status_code cfg.api_endpoint)
  ∧ Yourls.stats cfg r
        = Outcome.err (Pyourls3Error.httpError r.status_code cfg.api_endpoint)
  ∧ Yourls.url_stats cfg u r
        = Outcome.err (Pyourls3Error.httpError r.status_code cfg.api_endpoint)
  ∧ (Yourls.delete cfg k r
        = if r.status_code = 200 then Outcome.ok true
          else Outcome.err (Pyourls3Error.httpError r.status_code cfg.api_endpoint)) := by
  refine ⟨?_, ?_, ?_, ?_, ?_, ?_⟩
  · simp [Yourls.shorten, Yourls.statusEnvelope, hu, hb]
  · simp [Yourls.update, Yourls.statusEnvelope, hu, hb]
  · simp [Yourls.expand, Yourls.messageEnvelope, hu, hb]
  · simp [Yourls.stats, hb]
  · simp [Yourls.url_stats, Yourls.messageEnvelope, hu, hb]
  · simp [Yourls.delete, hk]

/-- Witness for the amended C2 at a 404 response with an unparseable
body. -/
theorem C2_witness :
    Yourls.shorten cfgEx "https://example.com" rRaw404
      = Outcome.err (Pyourls3Error.httpError rRaw404.status_code cfgEx.api_endpoint) :=
  (C2_unparseable_body cfgEx "https://example.com" "abc" rRaw404
    (by decide) (by decide) rfl).1

/-- C3 as stated is false: for the message "error: not: found" the code
takes element 1 of the full split on `": "`, yielding only "not", not
the entire detail "not: found". -/
theorem C3_counterexample :
    Yourls.expand cfgEx "abc" rMsgNested
      = Outcome.err (Pyourls3Error.apiError (Json.str "not") (Json.str "E404"))
  ∧ Yourls.expand cfgEx "abc" rMsgNested
      ≠ Outcome.err (Pyourls3Error.apiError (Json.str "not: found") (Json.str "E404")) := by
  refine ⟨rfl, ?_⟩
  rw [show Yourls.expand cfgEx "abc" rMsgNested
      = Outcome.err (Pyourls3Error.apiError (Json.str "not") (Json.str "E404")) from rfl]
  simp only [ne_eq, Outcome.err.injEq, Pyourls3Error.apiError.injEq, Json.str.injEq]
  decide

/-- C3 amended: for expand and url_stats on a parsed failure envelope
whose string message splits on `": "` into at least two segments, the
APIError carries segment index 1 of the split — the part of the detail
before its next `": "` occurrence — together with the code field. -/
theorem C3_error_detail (cfg : Config) (u : String) (r : Response)
    (j : List (String × Json)) (s d : String) (c : Json)
    (hu : u ≠ "") (hb : r.body = some j)
    (hm : jget j "message" = some (Json.str s)) (hns : s ≠ "success")
    (hd : (pySplitCS s)[1]? = some d) (hc : jget j "code" = some c) :
    Yourls.expand cfg u r = Outcome.err (Pyourls3Error.apiError (Json.str d) c)
  ∧ Yourls.url_stats cfg u r = Outcome.err (Pyourls3Error.apiError (Json.str d) c) := by
  have hms : (Json.str s).eqStr "success" = false := by
    simp [Json.eqStr_false_iff, hns]
  constructor
  · unfold Yourls.expand Yourls.messageEnvelope
    simp [hu, hb, hm, hms, hd, hc]
  · unfold Yourls.url_stats Yourls.messageEnvelope
    simp [hu, hb, hm, hms, hd, hc]

/-- Witness for the amended C3 at the message "error: not found". -/
theorem C3_witness :
    Yourls.expand cfgEx "abc" rMsgPlain
      = Outcome.err (Pyourls3Error.apiError (Json.str "not found") (Json.str "E404"))
  ∧ Yourls.url_stats cfgEx "abc" rMsgPlain
      = Outcome.err (Pyourls3Error.apiError (Json.str "not found") (Json.str "E404")) :=
  C3_error_detail cfgEx "abc" rMsgPlain
    [("message", Json.str "error: not found"), ("code", Json.str "E404")]
    "error: not found" "not found" (Json.str "E404")
    (by decide) rfl rfl (by decide) rfl rfl

theorem splitCS_of_not_hasCS : ∀ l : List Char, hasCS l = false → splitCS l = [l] := by
  intro l
  induction l with
  | nil => intro h; rfl
  | cons c rest ih =>
    intro h
    cases rest with
    | nil => rfl
    | cons c2 rest2 =>
      unfold hasCS at h
      by_cases hc : c = ':' ∧ c2 = ' '
      · rw [if_pos hc] at h
        exact absurd h (by simp)
      · rw [if_neg hc] at h
        unfold splitCS
        rw [if_neg hc, ih h]

/-- C9: in expand and url_stats, a parsed failure envelope whose string
message does not contain the substring `": "` makes the
`split(": ")[1]` extraction raise IndexError — an untyped error — and
no classified pyourls3 error; so the failure branch is total only for
messages containing the separator. -/
theorem C9_index_error (cfg : Config) (u : String) (r : Response)
    (j : List (String × Json)) (s : String)
    (hu : u ≠ "") (hb : r.body = some j)
    (hm : jget j "message" = some (Json.str s)) (hns : s ≠ "success")
    (hsep : pyContainsCS s = false) :
    Yourls.expand cfg u r = Outcome.pyerr PyRuntimeError.indexError
  ∧ Yourls.url_stats cfg u r = Outcome.pyerr PyRuntimeError.indexError := by
  have hms : (Json.str s).eqStr "success" = false := by
    simp [Json.eqStr_false_iff, hns]
  have hone : (pySplitCS s)[1]? = none := by
    unfold pySplitCS
    rw [splitCS_of_not_hasCS s.data hsep]
    rfl
  constructor
  · unfold Yourls.expand Yourls.messageEnvelope
    simp [hu, hb, hm, hms, hone]
  · unfold Yourls.url_stats Yourls.messageEnvelope
    simp [hu, hb, hm, hms, hone]

/-- Witness for C9 at the separator-free message "failure". -/
theorem C9_witness :
    Yourls.expand cfgEx "abc" rMsgNoSep = Outcome.pyerr PyRuntimeError.indexError
  ∧ Yourls.url_stats cfgEx "abc" rMsgNoSep = Outcome.pyerr PyRuntimeError.indexError :=
  C9_index_error cfgEx "abc" rMsgNoSep
    [("message", Json.str "failure"), ("code", Json.str "E500")]
    "failure" (by decide) rfl rfl (by decide) (by decide)

/-- C10: shorten, update and stats access fixed keys of the parsed JSON
without checking presence: a parsed body lacking "status"
(shorten/update), lacking "code" on failure, lacking "message" on a
non-duplicate failure, or lacking "stats" (stats performs no
success/failure check at all) escapes with an untyped KeyError, never a
classified pyourls3 error. -/
theorem C10_key_errors (cfg : Config) (u : String) (r : Response)
    (j : List (String × Json)) (hu : u ≠ "") (hb : r.body = some j) :
    (jget j "status" = none →
        Yourls.shorten cfg u r = Outcome.pyerr (PyRuntimeError.keyError "status")
      ∧ Yourls.update cfg u r = Outcome.pyerr (PyRuntimeError.keyError "status"))
  ∧ (∀ st, jget j "status" = some st → st.eqStr "success" = false →
      jget j "code" = none →
        Yourls.shorten cfg u r = Outcome.pyerr (PyRuntimeError.keyError "code")
      ∧ Yourls.update cfg u r = Outcome.pyerr (PyRuntimeError.keyError "code"))
  ∧ (∀ st c, jget j "status" = some st → st.eqStr "success" = false →
      jget j "code" = some c → c.eqStr "error:url" = false →
      jget j "message" = none →
        Yourls.shorten cfg u r = Outcome.pyerr (PyRuntimeError.keyError "message")
      ∧ Yourls.update cfg u r = Outcome.pyerr (PyRuntimeError.keyError "message"))
  ∧ (jget j "stats" = none →
      Yourls.stats cfg r = Outcome.pyerr (PyRuntimeError.keyError "stats")) := by
  have hsu : Yourls.update cfg u r = Yourls.shorten cfg u r := rfl
  refine ⟨?_, ?_, ?_, ?_⟩
  · intro hs
    have h1 : Yourls.shorten cfg u r = Outcome.pyerr (PyRuntimeError.keyError "status") := by
      unfold Yourls.shorten Yourls.statusEnvelope
      simp [hu, hb, hs]
    exact ⟨h1, hsu.trans h1⟩
  · intro st h1 h2 h3
    have h4 : Yourls.shorten cfg u r = Outcome.pyerr (PyRuntimeError.keyError "code") := by
      unfold Yourls.shorten Yourls.statusEnvelope
      simp [hu, hb, h1, h2, h3]
    exact ⟨h4, hsu.trans h4⟩
  · intro st c h1 h2 h3 h4 h5
    have h6 : Yourls.shorten cfg u r = Outcome.pyerr (PyRuntimeError.keyError "message") := by
      unfold Yourls.shorten Yourls.statusEnvelope
      simp [hu, hb, h1, h2, h3, h4, h5]
    exact ⟨h6, hsu.trans h6⟩
  · intro hs
    unfold Yourls.stats
    simp [hb, hs]

/-- Witness for C10 at a parsed empty object and at a failure envelope
lacking the message key. -/
theorem C10_witness :
    Yourls.shorten cfgEx "https://example.com" rEmptyObj
      = Outcome.pyerr (PyRuntimeError.keyError "status")
  ∧ Yourls.stats cfgEx rEmptyObj = Outcome.pyerr (PyRuntimeError.keyError "stats")
  ∧ Yourls.update cfgEx "https://example.com" rNoMessage
      = Outcome.pyerr (PyRuntimeError.keyError "message") :=
  ⟨((C10_key_errors cfgEx "https://example.com" rEmptyObj [] (by decide) rfl).1 rfl).1,
   (C10_key_errors cfgEx "https://example.com" rEmptyObj [] (by decide) rfl).2.2.2 rfl,
   ((C10_key_errors cfgEx "https://example.com" rNoMessage
      [("status", Json.str "fail"), ("code", Json.str "error:keyword")]
      (by decide) rfl).2.2.1 (Json.str "fail") (Json.str "error:keyword")
      rfl (by decide) rfl (by decide) rfl).2⟩

theorem init_ok_inv (addr : String) (user passwd key : Option Json)
    (probe : Response) (cfg : Config)
    (h : Yourls.init addr user passwd key probe = Except.ok cfg) :
    addr ≠ "" ∧ probe.status_code ≠ 403
  ∧ ∃ b g, authArgs user passwd key = Except.ok (b, g)
      ∧ cfg.is_using_signature_auth = b
      ∧ cfg.global_args = g ++ [("format", Json.str "json")]
      ∧ cfg.api_endpoint = normalizeAddr addr ++ "yourls-api.php" := by
  unfold Yourls.init at h
  repeat' split at h
  any_goals exact Except.noConfusion h
  injection h with h
  subst h
  exact ⟨by assumption, by assumption, _, _, by assumption, rfl, rfl, rfl⟩

theorem authArgs_ok_inv (user passwd key : Option Json) (b : Bool)
    (g : List (String × Json))
    (h : authArgs user passwd key = Except.ok (b, g)) :
    (∃ su sp, g = [("username", Json.str su), ("password", Json.str sp)] ∧ b = false)
  ∨ (∃ ss, g = [("signature", Json.str ss)] ∧ b = true) := by
  unfold authArgs at h
  repeat' split at h
  any_goals exact Except.noConfusion h
  all_goals rw [Except.ok.injEq, Prod.mk.injEq] at h
  all_goals obtain ⟨rfl, rfl⟩ := h
  · exact Or.inl ⟨_, _, rfl, rfl⟩
  · exact Or.inr ⟨_, rfl, rfl⟩

theorem authArgs_no_creds (user passwd : Option Json)
    (h : user = none ∨ passwd = none) :
    authArgs user passwd none
      = Except.error (Pyourls3Error.paramError "username and password or signature") := by
  rcases h with h | h
  · subst h
    cases passwd <;> rfl
  · subst h
    cases user <;> rfl

/-- C4 as stated is false: the constructor checks that a supplied key
is a string but never that it is non-empty, so an empty-string key is
accepted and the signature field of the resulting global parameter set
is the empty string. -/
theorem C4_counterexample :
    (Yourls.init "http://example.com" none none (some (Json.str "")) rRaw200).map
        (fun c => jget c.global_args "signature")
      = Except.ok (some (Json.str "")) := rfl

/-- C4 amended: construction accepts exactly one authentication mode
and validates each supplied credential to be a string — emptiness is
not checked: with neither user and passwd both supplied nor key
supplied (and a well-formed address) a ParamError is raised, and every
accepted construction yields global parameters holding either a
username and a password (both strings, no signature) or a signature (a
string, no username and no password). -/
theorem C4_auth_modes (addr : String) (user passwd key : Option Json)
    (probe : Response) :
    ((user = none ∨ passwd = none) → key = none → addr ≠ "" →
      (parsedScheme addr).isNone = false →
      Yourls.init addr user passwd key probe
        = Except.error (Pyourls3Error.paramError "username and password or signature"))
  ∧ (∀ cfg, Yourls.init addr user passwd key probe = Except.ok cfg →
      (∃ su sp, jget cfg.global_args "username" = some (Json.str su)
        ∧ jget cfg.global_args "password" = some (Json.str sp)
        ∧ jget cfg.global_args "signature" = none)
      ∨ (∃ ss, jget cfg.global_args "signature" = some (Json.str ss)
        ∧ jget cfg.global_args "username" = none
        ∧ jget cfg.global_args "password" = none)) := by
  constructor
  · intro hnp hk ha hsch
    subst hk
    unfold Yourls.init
    simp [ha, hsch, authArgs_no_creds user passwd hnp]
  · intro cfg h
    obtain ⟨-, -, b, g, hauth, -, hg, -⟩ :=
      init_ok_inv addr user passwd key probe cfg h
    rcases authArgs_ok_inv user passwd key b g hauth with
      ⟨su, sp, hgl, -⟩ | ⟨ss, hgl, -⟩
    · subst hgl
      left
      refine ⟨su, sp, ?_, ?_, ?_⟩ <;> rw [hg] <;> rfl
    · subst hgl
      right
      refine ⟨ss, ?_, ?_, ?_⟩ <;> rw [hg] <;> rfl

/-- Witness for the amended C4: no credentials raise ParamError, and a
key construction yields signature-only global parameters. -/
theorem C4_witness :
    Yourls.init "http://example.com" none none none rRaw200
      = Except.error (Pyourls3Error.paramError "username and password or signature")
  ∧ ((∃ su sp, jget cfgEx.global_args "username" = some (Json.str su)
        ∧ jget cfgEx.global_args "password" = some (Json.str sp)
        ∧ jget cfgEx.global_args "signature" = none)
      ∨ (∃ ss, jget cfgEx.global_args "signature" = some (Json.str ss)
        ∧ jget cfgEx.global_args "username" = none
        ∧ jget cfgEx.global_args "password" = none)) :=
  ⟨(C4_auth_modes "http://example.com" none none none rRaw200).1
      (Or.inl rfl) rfl (by decide) (by decide),
   (C4_auth_modes "http://example.com" none none (some (Json.str "abc")) rRaw200).2
      cfgEx rfl⟩

/-- C7: with a well-formed address and accepted credentials,
construction fails with an APIError carrying code 403 exactly when the
probe response status is 403; for any other probe status construction
succeeds. -/
theorem C7_probe_auth (addr : String) (user passwd key : Option Json)
    (probe : Response) (b : Bool) (g : List (String × Json))
    (ha : addr ≠ "") (hsch : (parsedScheme addr).isNone = false)
    (hauth : authArgs user passwd key = Except.ok (b, g)) :
    (probe.status_code = 403 →
      Yourls.init addr user passwd key probe
        = Except.error (Pyourls3Error.apiError
            (Json.str "credentials are invalid or incorrect: forbidden")
            (Json.num 403)))
  ∧ (probe.status_code ≠ 403 →
      Yourls.init addr user passwd key probe
        = Except.ok
            { is_using_signature_auth := b
              global_args := g ++ [("format", Json.str "json")]
              api_endpoint := normalizeAddr addr ++ "yourls-api.php" }) := by
  constructor <;> intro hp <;> unfold Yourls.init <;> simp [ha, hsch, hauth, hp]

/-- Witness for C7: a 403 probe fails construction with APIError 403
and a 200 probe constructs successfully. -/
theorem C7_witness :
    Yourls.init "http://example.com" none none (some (Json.str "abc")) probe403
      = Except.error (Pyourls3Error.apiError
          (Json.str "credentials are invalid or incorrect: forbidden") (Json.num 403))
  ∧ Yourls.init "http://example.com" none none (some (Json.str "abc")) rRaw200
      = Except.ok cfgEx :=
  ⟨(C7_probe_auth "http://example.com" none none (some (Json.str "abc")) probe403
      true [("signature", Json.str "abc")] (by decide) (by decide) rfl).1 rfl,
   (C7_probe_auth "http://example.com" none none (some (Json.str "abc")) rRaw200
      true [("signature", Json.str "abc")] (by decide) (by decide) rfl).2 (by decide)⟩

theorem lastChar_append_slash (a : String) : lastChar (a ++ "/") = some '/' := by
  simp [lastChar, String.data_append]

/-- C8: for every base address accepted by the constructor and not
ending in a slash, construction from the address and from the address
with a trailing slash appended derive the identical API endpoint
string, the address followed by "/yourls-api.php". -/
theorem C8_trailing_slash (a : String) (user passwd key : Option Json)
    (probe : Response) (c1 c2 : Config)
    (hsl : lastChar a ≠ some '/')
    (h1 : Yourls.init a user passwd key probe = Except.ok c1)
    (h2 : Yourls.init (a ++ "/") user passwd key probe = Except.ok c2) :
    c1.api_endpoint = c2.api_endpoint
  ∧ c1.api_endpoint = a ++ "/" ++ "yourls-api.php" := by
  obtain ⟨-, -, b1, g1, -, -, -, he1⟩ := init_ok_inv a user passwd key probe c1 h1
  obtain ⟨-, -, b2, g2, -, -, -, he2⟩ :=
    init_ok_inv (a ++ "/") user passwd key probe c2 h2
  have hn1 : normalizeAddr a = a ++ "/" := by
    unfold normalizeAddr
    rw [if_neg hsl]
  have hn2 : normalizeAddr (a ++ "/") = a ++ "/" := by
    unfold normalizeAddr
    rw [if_pos (lastChar_append_slash a)]
  rw [he1, he2, hn1, hn2]
  exact ⟨rfl, rfl⟩

/-- Witness for C8 at the address `http://example.com`. -/
theorem C8_witness :
    cfgEx.api_endpoint = cfgEx.api_endpoint
  ∧ cfgEx.api_endpoint = "http://example.com" ++ "/" ++ "yourls-api.php" :=
  C8_trailing_slash "http://example.com" none none (some (Json.str "abc")) rRaw200
    cfgEx cfgEx (by decide) rfl rfl

end Pyourls3
